import Mathlib

/-!
Shallow embedding of the twitch-recorder program (src/twitch_recorder.py)
and proofs of the specified properties.

The program is a single class TwitchRecorder with
  - a Live-Status Oracle (initialize_twitch / is_stream_live),
  - a Connectivity Prober (is_internet_available),
  - a Filename Allocator (get_output_filename, plus the mkdir in init),
  - a Capture Process Manager (start_recording / stop_recording),
  - a Recording Supervisor loop (record_stream).

Python exceptions are modelled with Except; Python mutable fields are
modelled by explicit state passing; the environment (network results,
API results, child-process fate) is a parameter of each function, or a
source of nondeterminism in the small-step loop model.
-/

/-! ## Exceptions

PyErr stands for the Python exception classes that appear in the source:
any subclass of Exception raised by the Twitch API client or by requests
(RequestException is such a subclass), subprocess.TimeoutExpired, and the
BaseException subclass KeyboardInterrupt which `except Exception` does
NOT catch. -/

/-- Python exception values relevant to the source, except KeyboardInterrupt
(which is modelled separately where it matters, since it is not an
Exception subclass). -/
inductive PyErr where
  | twitchAuthError
  | twitchQueryError
  | requestException
  | timeoutExpired
  | otherError
deriving DecidableEq, Repr

/-! ## Live-Status Oracle: initialize_twitch and is_stream_live
(src/twitch_recorder.py lines 35-54)

The session self.twitch is an Option Nat (None before the handshake,
some session id after). The environment supplies the result of the
`await Twitch(client_id, client_secret)` handshake and of the
`first(self.twitch.get_streams(user_login=[self.channel]))` query. -/

/-- Environment of one is_stream_live call: the outcome the Twitch API
would give for the handshake and for the get_streams query (per session). -/
structure LiveEnv where
  handshake : Except PyErr Nat
  query : Nat → Except PyErr Bool

/-- Model of initialize_twitch (lines 35-42): tries the handshake; on
success assigns self.twitch; on failure logs and re-raises, leaving
self.twitch unchanged (the assignment never happened). Returns the new
value of self.twitch and the call outcome. -/
def initialize_twitch (twitch : Option Nat) (env : LiveEnv) :
    Option Nat × Except PyErr Unit :=
  match env.handshake with
  | Except.ok s => (some s, Except.ok ())
  | Except.error e => (twitch, Except.error e)

/-- Body of the try-block of is_stream_live (lines 46-51): if self.twitch
is unset, run initialize_twitch (re-raising its failure); then query the
platform and return bool(stream). Returns the new self.twitch and the
outcome of the block. -/
def is_stream_live_body (twitch : Option Nat) (env : LiveEnv) :
    Option Nat × Except PyErr Bool :=
  match twitch with
  | none =>
    match initialize_twitch none env with
    | (tw, Except.error e) => (tw, Except.error e)
    | (tw, Except.ok ()) =>
      match tw with
      | some s => (some s, env.query s)
      | none => (none, env.query 0)
  | some s => (some s, env.query s)

/-- Model of is_stream_live (lines 44-54): the try-block, with
`except Exception` catching every PyErr, logging it and returning False.
The result is the new self.twitch and the returned Bool; no exception
ever escapes (the return type carries no Except). -/
def is_stream_live (twitch : Option Nat) (env : LiveEnv) :
    Option Nat × Bool :=
  match is_stream_live_body twitch env with
  | (tw, Except.ok b) => (tw, b)
  | (tw, Except.error _) => (tw, false)

/-- The guard `if not self.twitch` (line 47): the handshake is attempted
by a call exactly when the stored session is unset. -/
def handshake_attempted (twitch : Option Nat) : Bool :=
  twitch.isNone

/-! ## Connectivity Prober: is_internet_available
(src/twitch_recorder.py lines 56-70) -/

/-- The fixed ordered endpoint list of is_internet_available (lines 58-62). -/
def endpoints : List String :=
  ["https://1.1.1.1", "https://8.8.8.8", "https://www.google.com"]

/-- The timeout passed to requests.get (line 66), in seconds. -/
def REQUESTS_GET_TIMEOUT : Nat := 5

/-- The for-loop of is_internet_available (lines 64-70): each
requests.get either returns a response or raises a RequestException;
the except clause turns the latter into trying the next endpoint; a
success returns True immediately; exhaustion returns False. The probe
function is the network environment. -/
def probe_endpoints (probe : String → Except PyErr Unit) :
    List String → Bool
  | [] => false
  | e :: rest =>
    match probe e with
    | Except.ok () => true
    | Except.error _ => probe_endpoints probe rest

/-- Model of is_internet_available (lines 56-70). Total: every network
error is absorbed by the except clause, so no exception reaches the
caller. -/
def is_internet_available (probe : String → Except PyErr Unit) : Bool :=
  probe_endpoints probe endpoints

/-! ## Filename Allocator: get_output_filename
(src/twitch_recorder.py lines 72-75, plus the mkdir in init, lines 26-27)

Python strings are modelled as List Char. datetime.datetime.now() is a
wall-clock value with second resolution; strftime with format
"%Y%m%d_%H%M%S" zero-pads the year to width 4 and every other field to
width 2. -/

/-- A wall-clock timestamp at second resolution, as produced by
datetime.datetime.now(). -/
structure DateTime where
  year : Nat
  month : Nat
  day : Nat
  hour : Nat
  minute : Nat
  second : Nat
deriving DecidableEq, Repr

/-- Field ranges of a value datetime.datetime.now() can return
(datetime supports years 1 to 9999). -/
def ValidDateTime (t : DateTime) : Prop :=
  t.year < 10000 ∧ 1 ≤ t.month ∧ t.month ≤ 12 ∧ 1 ≤ t.day ∧ t.day ≤ 31 ∧
    t.hour < 24 ∧ t.minute < 60 ∧ t.second < 60

instance (t : DateTime) : Decidable (ValidDateTime t) := by
  unfold ValidDateTime; infer_instance

/-- One decimal digit as a character. -/
def digitChar (n : Nat) : Char := Char.ofNat (48 + n)

/-- Zero-padded width-2 decimal rendering (strftime %m, %d, %H, %M, %S). -/
def pad2 (n : Nat) : List Char := [digitChar (n / 10 % 10), digitChar (n % 10)]

/-- Zero-padded width-4 decimal rendering (strftime %Y for years < 10000). -/
def pad4 (n : Nat) : List Char :=
  [digitChar (n / 1000 % 10), digitChar (n / 100 % 10),
   digitChar (n / 10 % 10), digitChar (n % 10)]

/-- strftime("%Y%m%d_%H%M%S") on a DateTime (line 74). -/
def strftime_timestamp (t : DateTime) : List Char :=
  pad4 t.year ++ pad2 t.month ++ pad2 t.day ++ ['_'] ++
    pad2 t.hour ++ pad2 t.minute ++ pad2 t.second

/-- The output directory fixed in init (line 26): Path('recordings'). -/
def output_dir : List Char := "recordings".data

/-- Model of get_output_filename (lines 72-75): the path
output_dir / (channel ++ "_" ++ timestamp ++ ".mp4"), where the Path
division operator inserts "/". The timestamp is the wall-clock time at
the moment of the call. -/
def get_output_filename (channel : List Char) (t : DateTime) : List Char :=
  output_dir ++ ['/'] ++ channel ++ ['_'] ++ strftime_timestamp t ++ ".mp4".data

/-! ### Filesystem effects

The filesystem is the set of existing directories, modelled as a list of
paths. Path.mkdir(exist_ok=True) creates the directory if absent and is
a no-op if present. -/

/-- Model of Path.mkdir(exist_ok=True) (line 27). -/
def mkdir_exist_ok (fs : List (List Char)) (dir : List Char) :
    List (List Char) :=
  if dir ∈ fs then fs else dir :: fs

/-- Filesystem effect of TwitchRecorder.init (lines 23-27): the single
mkdir of the output directory, performed once at construction. -/
def recorder_init_fs (fs : List (List Char)) : List (List Char) :=
  mkdir_exist_ok fs output_dir

/-- Filesystem effect of a get_output_filename call (lines 72-75): the
function only formats a path; it touches no directory, so the
filesystem is returned unchanged alongside the allocated path. -/
def get_output_filename_fs (fs : List (List Char)) (channel : List Char)
    (t : DateTime) : List (List Char) × List Char :=
  (fs, get_output_filename channel t)

/-! ## Capture Process Manager: stop_recording and start_recording
(src/twitch_recorder.py lines 77-108) -/

/-- Health of a spawned child process: still running, or already exited. -/
inductive ProcHealth where
  | running
  | exited
deriving DecidableEq, Repr

/-- Signal-level actions a stop_recording call performs on the child. -/
inductive SigAct where
  | terminateSig
  | waited
  | killSig
deriving DecidableEq, Repr

/-- The timeout, in seconds, passed to Popen.wait in stop_recording
(line 104). -/
def STOP_WAIT_TIMEOUT : Nat := 10

/-- Model of Popen.wait(timeout) (line 104): on an already-exited
process it returns at once; on a running process the environment says
how many seconds after terminate() the child will take to exit (none if
it never would); the wait returns normally when that is within the
timeout and raises subprocess.TimeoutExpired otherwise. -/
def wait_with_timeout (h : ProcHealth) (timeout : Nat)
    (exitAfter : Option Nat) : Except PyErr Unit :=
  match h with
  | ProcHealth.exited => Except.ok ()
  | ProcHealth.running =>
    match exitAfter with
    | some d =>
      if d ≤ timeout then Except.ok () else Except.error PyErr.timeoutExpired
    | none => Except.error PyErr.timeoutExpired

/-- Model of stop_recording (lines 99-108). The stored handle is
Option ProcHealth (None when no process is stored). With a stored
process: terminate() is sent (a no-op on an exited child, never an
error), wait(timeout=10) runs, and only TimeoutExpired is caught, by
kill(); then self.process = None. With no stored process the whole body
is skipped. The result is the outcome (an escaped exception would be
Except.error), the new handle, and the signal actions performed. -/
def stop_recording (process : Option ProcHealth) (exitAfter : Option Nat) :
    Except PyErr (Option ProcHealth × List SigAct) :=
  match process with
  | none => Except.ok (none, [])
  | some h =>
    match wait_with_timeout h STOP_WAIT_TIMEOUT exitAfter with
    | Except.ok () =>
      Except.ok (none, [SigAct.terminateSig, SigAct.waited])
    | Except.error PyErr.timeoutExpired =>
      Except.ok (none, [SigAct.terminateSig, SigAct.waited, SigAct.killSig])
    | Except.error e => Except.error e

/-! ## Recording Supervisor: record_stream
(src/twitch_recorder.py lines 110-141)

Two views, both translated from the same loop.

First a small-step labelled transition system over the whole program
run, for the process-count invariant and the error-propagation policy.
Spawned child processes get successive Nat ids (nextId); liveProcs is
the set of child processes currently alive, which the environment can
shrink at any time (a child may die on its own). The program counter
distinguishes the top of the outer while-True loop (line 112), the
inner recording loop (line 127), and the state after the break of the
KeyboardInterrupt handler (line 137). -/

/-- Program counter of record_stream: top of the outer loop, inside the
inner recording loop, or after the break on KeyboardInterrupt. -/
inductive PC where
  | outer
  | inner
  | done
deriving DecidableEq, Repr

/-- Global state of a record_stream run: program counter, the stored
self.process handle (by child id), the set of currently-alive child
processes, and the next fresh child id. -/
structure RState where
  pc : PC
  process : Option Nat
  liveProcs : Finset Nat
  nextId : Nat
deriving DecidableEq

/-- Effect of start_recording (lines 77-97) on the run state: Popen
spawns a fresh child (which starts alive) and the handle field is
overwritten with it, unconditionally - the function neither inspects
nor stops any previously stored handle. -/
def start_recording (s : RState) : RState :=
  { s with
    process := some s.nextId,
    liveProcs := insert s.nextId s.liveProcs,
    nextId := s.nextId + 1 }

/-- Effect of stop_recording (lines 99-108) on the run state: with a
stored handle, the child is terminated (killed on wait timeout), hence
no longer alive, and the handle is cleared; with no stored handle,
nothing happens. -/
def applyStop (s : RState) : RState :=
  match s.process with
  | none => s
  | some p => { s with process := none, liveProcs := s.liveProcs.erase p }

/-- Labels of the transitions of record_stream; backoff and sleep
durations are in seconds and carried on the label. -/
inductive StepLabel where
  | childDies
  | netWait (backoff : Nat)
  | liveWait (backoff : Nat)
  | startRec
  | pollSleep (secs : Nat)
  | exitPollDead
  | exitNoHandle
  | stopOnOffline
  | errorCaught (backoff : Nat)
  | interrupted
deriving DecidableEq, Repr

/-- Small-step semantics of record_stream (lines 110-141). Environment
outcomes (network up or down, channel live or not, child death, an
unexpected Exception or a KeyboardInterrupt at any point inside the
try-block) appear as nondeterministic choice between constructors.
  - childDies: a running child exits on its own (environment).
  - netWait: line 114, no internet; warn and sleep 30, re-tick.
  - liveWait: line 119, not live; log and sleep 30, re-tick.
  - startRec: lines 124-125, get filename and start_recording, enter
    the inner loop.
  - pollSleep: line 127 condition true and line 128 check true (still
    live): sleep 30 and re-check.
  - exitPollDead: line 127, poll() is not None - the child exited on
    its own: the inner loop exits to the outer loop with NO call to
    stop_recording and the stale handle still stored.
  - exitNoHandle: line 127, self.process is None: inner loop exits.
  - stopOnOffline: lines 128-131, is_stream_live returned False: log,
    stop_recording, break to the outer loop.
  - errorCaught: lines 138-141, an unexpected Exception anywhere in the
    tick: log, stop_recording defensively, sleep 30, continue the loop.
  - interrupted: lines 134-137, KeyboardInterrupt anywhere in the tick:
    log, stop_recording, break out of the loop. -/
inductive RecordStep : RState → StepLabel → RState → Prop where
  | childDies (s : RState) (p : Nat) (hp : p ∈ s.liveProcs) :
      RecordStep s StepLabel.childDies
        { s with liveProcs := s.liveProcs.erase p }
  | netWait (s : RState) (h : s.pc = PC.outer) :
      RecordStep s (StepLabel.netWait 30) s
  | liveWait (s : RState) (h : s.pc = PC.outer) :
      RecordStep s (StepLabel.liveWait 30) s
  | startRec (s : RState) (h : s.pc = PC.outer) :
      RecordStep s StepLabel.startRec
        { start_recording s with pc := PC.inner }
  | pollSleep (s : RState) (p : Nat) (h : s.pc = PC.inner)
      (hp : s.process = some p) (hl : p ∈ s.liveProcs) :
      RecordStep s (StepLabel.pollSleep 30) s
  | exitPollDead (s : RState) (p : Nat) (h : s.pc = PC.inner)
      (hp : s.process = some p) (hl : p ∉ s.liveProcs) :
      RecordStep s StepLabel.exitPollDead { s with pc := PC.outer }
  | exitNoHandle (s : RState) (h : s.pc = PC.inner)
      (hp : s.process = none) :
      RecordStep s StepLabel.exitNoHandle { s with pc := PC.outer }
  | stopOnOffline (s : RState) (p : Nat) (h : s.pc = PC.inner)
      (hp : s.process = some p) :
      RecordStep s StepLabel.stopOnOffline
        { applyStop s with pc := PC.outer }
  | errorCaught (s : RState) (h : s.pc ≠ PC.done) :
      RecordStep s (StepLabel.errorCaught 30)
        { applyStop s with pc := PC.outer }
  | interrupted (s : RState) (h : s.pc ≠ PC.done) :
      RecordStep s StepLabel.interrupted
        { applyStop s with pc := PC.done }

/-- The state in which record_stream is entered: top of the outer loop,
no stored handle, no child yet spawned. -/
def initState : RState :=
  { pc := PC.outer, process := none, liveProcs := ∅, nextId := 0 }

/-- Reachability along any number of steps with any labels. -/
def Reaches (s s' : RState) : Prop :=
  Relation.ReflTransGen (fun a b => ∃ l, RecordStep a l b) s s'

/-! ### Functional view of the inner recording loop
(src/twitch_recorder.py lines 127-132)

The inner loop is also rendered as a function of the finite trace of
environment answers it consumes: per iteration, whether poll() found
the child still running and whether is_stream_live answered true. The
handle is some process for the whole loop (start_recording has just set
it, and the only assignment inside the loop, stop_recording's
self.process = None, is immediately followed by break). -/

/-- How the inner recording loop was left. -/
inductive InnerExit where
  | streamEnded
  | processExited
  | envExhausted
deriving DecidableEq, Repr

/-- Observable actions of an inner-loop iteration. -/
inductive LoopAct where
  | pollCheck
  | liveCheck
  | stopCall
  | sleep (secs : Nat)
deriving DecidableEq, Repr

/-- Result of a run of the inner loop: the actions performed in order,
how the loop exited, and whether self.process was cleared. -/
structure InnerRun where
  acts : List LoopAct
  exitKind : InnerExit
  handleCleared : Bool
deriving DecidableEq, Repr

/-- Model of the inner recording loop (lines 127-132) on a trace of
per-iteration environment answers (childAlive, isLive):
line 127 checks poll() - if the child has exited the loop ends with no
further action (and the stale handle still stored); line 128 checks
is_stream_live - on False, stop_recording runs and break ends the loop;
otherwise line 132 sleeps 30 seconds and the loop repeats. A trace that
runs out while recording leaves the loop still in progress. -/
def record_inner : List (Bool × Bool) → InnerRun
  | [] => { acts := [], exitKind := InnerExit.envExhausted, handleCleared := false }
  | (childAlive, isLive) :: rest =>
    if childAlive = false then
      { acts := [LoopAct.pollCheck], exitKind := InnerExit.processExited,
        handleCleared := false }
    else if isLive = false then
      { acts := [LoopAct.pollCheck, LoopAct.liveCheck, LoopAct.stopCall],
        exitKind := InnerExit.streamEnded, handleCleared := true }
    else
      let r := record_inner rest
      { acts := LoopAct.pollCheck :: LoopAct.liveCheck :: LoopAct.sleep 30 :: r.acts,
        exitKind := r.exitKind, handleCleared := r.handleCleared }

/-- Invariant of the record_stream transition system: every alive child
is the stored handle (hence there is at most one), and outside the
inner recording loop no child is alive at all. -/
def LoopInv (s : RState) : Prop :=
  (∀ p ∈ s.liveProcs, s.process = some p) ∧
    (s.pc ≠ PC.inner → s.liveProcs = ∅)

/-! ## Helper lemmas -/

theorem probe_endpoints_true_iff (probe : String → Except PyErr Unit) :
    ∀ l : List String,
      probe_endpoints probe l = true ↔ ∃ e ∈ l, probe e = Except.ok () := by
  intro l
  induction l with
  | nil => simp [probe_endpoints]
  | cons e rest ih =>
    cases hpe : probe e with
    | ok u =>
      cases u
      simp [probe_endpoints, hpe]
    | error err =>
      simp only [probe_endpoints, hpe, ih, List.mem_cons]
      constructor
      · rintro ⟨x, hx, hpx⟩
        exact ⟨x, Or.inr hx, hpx⟩
      · rintro ⟨x, hx | hx, hpx⟩
        · rw [hx] at hpx
          rw [hpe] at hpx
          exact absurd hpx (by simp)
        · exact ⟨x, hx, hpx⟩

theorem applyStop_process (s : RState) : (applyStop s).process = none := by
  unfold applyStop
  cases hp : s.process with
  | none => exact hp
  | some p => rfl

theorem applyStop_not_mem (s : RState) (p : Nat) (hp : s.process = some p) :
    p ∉ (applyStop s).liveProcs := by
  unfold applyStop
  rw [hp]
  exact Finset.not_mem_erase p s.liveProcs

theorem applyStop_of_handle_inv (s : RState)
    (h : ∀ p ∈ s.liveProcs, s.process = some p) :
    (applyStop s).liveProcs = ∅ := by
  unfold applyStop
  cases hp : s.process with
  | none =>
    apply Finset.eq_empty_iff_forall_not_mem.mpr
    intro q hq
    have hcontra := h q hq
    rw [hp] at hcontra
    exact Option.noConfusion hcontra
  | some p =>
    apply Finset.eq_empty_iff_forall_not_mem.mpr
    intro q hq
    have hq2 := Finset.mem_of_mem_erase hq
    have hcontra := h q hq2
    rw [hp] at hcontra
    have : q = p := (Option.some.inj hcontra).symm
    exact (Finset.ne_of_mem_erase hq) this

theorem loopInv_step (s s' : RState) (l : StepLabel)
    (hstep : RecordStep s l s') (hinv : LoopInv s) : LoopInv s' := by
  obtain ⟨h1, h2⟩ := hinv
  cases hstep with
  | childDies p hp =>
    refine ⟨?_, ?_⟩
    · intro q hq
      exact h1 q (Finset.mem_of_mem_erase hq)
    · intro hpc
      have he := h2 hpc
      simp only [he]
      exact Finset.erase_empty p
  | netWait h => exact ⟨h1, h2⟩
  | liveWait h => exact ⟨h1, h2⟩
  | startRec h =>
    have he : s.liveProcs = ∅ := h2 (by rw [h]; exact fun hc => PC.noConfusion hc)
    refine ⟨?_, ?_⟩
    · intro q hq
      simp only [start_recording, he] at hq
      rcases Finset.mem_insert.mp hq with hq1 | hq1
      · simp [start_recording, hq1]
      · exact absurd hq1 (Finset.not_mem_empty q)
    · intro hpc
      exact absurd rfl hpc
  | pollSleep p h hp hl => exact ⟨h1, h2⟩
  | exitPollDead p h hp hl =>
    refine ⟨h1, ?_⟩
    intro _
    apply Finset.eq_empty_iff_forall_not_mem.mpr
    intro q hq
    have hcontra := h1 q hq
    rw [hp] at hcontra
    exact hl ((Option.some.inj hcontra) ▸ hq)
  | exitNoHandle h hp =>
    refine ⟨h1, ?_⟩
    intro _
    apply Finset.eq_empty_iff_forall_not_mem.mpr
    intro q hq
    have hcontra := h1 q hq
    rw [hp] at hcontra
    exact Option.noConfusion hcontra
  | stopOnOffline p h hp =>
    refine ⟨?_, ?_⟩
    · intro q hq
      exact absurd hq (by simp [applyStop_of_handle_inv s h1])
    · intro _
      exact applyStop_of_handle_inv s h1
  | errorCaught h =>
    refine ⟨?_, ?_⟩
    · intro q hq
      exact absurd hq (by simp [applyStop_of_handle_inv s h1])
    · intro _
      exact applyStop_of_handle_inv s h1
  | interrupted h =>
    refine ⟨?_, ?_⟩
    · intro q hq
      exact absurd hq (by simp [applyStop_of_handle_inv s h1])
    · intro _
      exact applyStop_of_handle_inv s h1

theorem loopInv_init : LoopInv initState := by
  constructor
  · intro p hp
    exact absurd hp (Finset.not_mem_empty p)
  · intro _
    rfl

theorem loopInv_reachable (s : RState) (h : Reaches initState s) :
    LoopInv s := by
  unfold Reaches at h
  induction h with
  | refl => exact loopInv_init
  | tail hab hbc ih =>
    obtain ⟨l, hl⟩ := hbc
    exact loopInv_step _ _ _ hl ih

theorem record_inner_streamEnded_count (tr : List (Bool × Bool)) :
    (record_inner tr).exitKind = InnerExit.streamEnded →
      (record_inner tr).acts.count LoopAct.stopCall = 1 ∧
        (record_inner tr).handleCleared = true := by
  induction tr with
  | nil => intro h; exact absurd h (by simp [record_inner])
  | cons hd rest ih =>
    obtain ⟨childAlive, isLive⟩ := hd
    intro h
    by_cases ha : childAlive = false
    · rw [record_inner] at h
      simp only [ha, if_true] at h
      exact absurd h (by simp)
    · by_cases hl : isLive = false
      · simp [record_inner, ha, hl, List.count_cons]
      · rw [record_inner] at h ⊢
        simp only [ha, hl, if_false] at h ⊢
        obtain ⟨hc, hcl⟩ := ih h
        refine ⟨?_, hcl⟩
        simp [List.count_cons, hc]

theorem record_inner_processExited_count (tr : List (Bool × Bool)) :
    (record_inner tr).exitKind = InnerExit.processExited →
      (record_inner tr).acts.count LoopAct.stopCall = 0 ∧
        (record_inner tr).handleCleared = false := by
  induction tr with
  | nil => intro h; exact absurd h (by simp [record_inner])
  | cons hd rest ih =>
    obtain ⟨childAlive, isLive⟩ := hd
    intro h
    by_cases ha : childAlive = false
    · simp [record_inner, ha, List.count_cons]
    · by_cases hl : isLive = false
      · rw [record_inner] at h
        simp only [ha, hl, if_false, if_true] at h
        exact absurd h (by simp)
      · rw [record_inner] at h ⊢
        simp only [ha, hl, if_false] at h ⊢
        obtain ⟨hc, hcl⟩ := ih h
        refine ⟨?_, hcl⟩
        simp [List.count_cons, hc]

theorem record_inner_sleep_30 (tr : List (Bool × Bool)) :
    ∀ n, LoopAct.sleep n ∈ (record_inner tr).acts → n = 30 := by
  induction tr with
  | nil => intro n hn; exact absurd hn (by simp [record_inner])
  | cons hd rest ih =>
    obtain ⟨childAlive, isLive⟩ := hd
    intro n hn
    by_cases ha : childAlive = false
    · rw [record_inner] at hn
      simp only [ha, if_true] at hn
      simp at hn
    · by_cases hl : isLive = false
      · rw [record_inner] at hn
        simp only [ha, hl, if_false, if_true] at hn
        simp at hn
      · rw [record_inner] at hn
        simp [ha, hl] at hn
        rcases hn with h | h
        · exact h
        · exact ih n h

theorem digitChar_inj {a b : Nat} (ha : a < 10) (hb : b < 10)
    (h : digitChar a = digitChar b) : a = b := by
  interval_cases a <;> interval_cases b <;> revert h <;> decide

theorem pad2_inj {a b : Nat} (ha : a < 100) (hb : b < 100)
    (h : pad2 a = pad2 b) : a = b := by
  simp only [pad2, List.cons.injEq, and_true] at h
  obtain ⟨h1, h2⟩ := h
  have e1 := digitChar_inj (Nat.mod_lt _ (by norm_num))
    (Nat.mod_lt _ (by norm_num)) h1
  have e2 := digitChar_inj (Nat.mod_lt _ (by norm_num))
    (Nat.mod_lt _ (by norm_num)) h2
  omega

theorem pad4_inj {a b : Nat} (ha : a < 10000) (hb : b < 10000)
    (h : pad4 a = pad4 b) : a = b := by
  simp only [pad4, List.cons.injEq, and_true] at h
  obtain ⟨h1, h2, h3, h4⟩ := h
  have e1 := digitChar_inj (Nat.mod_lt _ (by norm_num))
    (Nat.mod_lt _ (by norm_num)) h1
  have e2 := digitChar_inj (Nat.mod_lt _ (by norm_num))
    (Nat.mod_lt _ (by norm_num)) h2
  have e3 := digitChar_inj (Nat.mod_lt _ (by norm_num))
    (Nat.mod_lt _ (by norm_num)) h3
  have e4 := digitChar_inj (Nat.mod_lt _ (by norm_num))
    (Nat.mod_lt _ (by norm_num)) h4
  omega

theorem strftime_timestamp_length (t : DateTime) :
    (strftime_timestamp t).length = 15 := rfl

theorem strftime_timestamp_inj {t1 t2 : DateTime}
    (hv1 : ValidDateTime t1) (hv2 : ValidDateTime t2)
    (h : strftime_timestamp t1 = strftime_timestamp t2) : t1 = t2 := by
  obtain ⟨y1, mo1, d1, h1, mi1, s1⟩ := t1
  obtain ⟨y2, mo2, d2, h2, mi2, s2⟩ := t2
  simp only [ValidDateTime] at hv1 hv2
  obtain ⟨hy1, hmo1a, hmo1b, hd1a, hd1b, hh1, hmi1, hs1⟩ := hv1
  obtain ⟨hy2, hmo2a, hmo2b, hd2a, hd2b, hh2, hmi2, hs2⟩ := hv2
  simp only [strftime_timestamp, pad4, pad2, List.cons_append, List.nil_append,
    List.cons.injEq, and_true] at h
  simp only [DateTime.mk.injEq]
  obtain ⟨e1, e2, e3, e4, e5, e6, e7, e8, _, e9, e10, e11, e12, e13, e14⟩ := h
  have d01 := digitChar_inj (Nat.mod_lt _ (by norm_num)) (Nat.mod_lt _ (by norm_num)) e1
  have d02 := digitChar_inj (Nat.mod_lt _ (by norm_num)) (Nat.mod_lt _ (by norm_num)) e2
  have d03 := digitChar_inj (Nat.mod_lt _ (by norm_num)) (Nat.mod_lt _ (by norm_num)) e3
  have d04 := digitChar_inj (Nat.mod_lt _ (by norm_num)) (Nat.mod_lt _ (by norm_num)) e4
  have d05 := digitChar_inj (Nat.mod_lt _ (by norm_num)) (Nat.mod_lt _ (by norm_num)) e5
  have d06 := digitChar_inj (Nat.mod_lt _ (by norm_num)) (Nat.mod_lt _ (by norm_num)) e6
  have d07 := digitChar_inj (Nat.mod_lt _ (by norm_num)) (Nat.mod_lt _ (by norm_num)) e7
  have d08 := digitChar_inj (Nat.mod_lt _ (by norm_num)) (Nat.mod_lt _ (by norm_num)) e8
  have d09 := digitChar_inj (Nat.mod_lt _ (by norm_num)) (Nat.mod_lt _ (by norm_num)) e9
  have d10 := digitChar_inj (Nat.mod_lt _ (by norm_num)) (Nat.mod_lt _ (by norm_num)) e10
  have d11 := digitChar_inj (Nat.mod_lt _ (by norm_num)) (Nat.mod_lt _ (by norm_num)) e11
  have d12 := digitChar_inj (Nat.mod_lt _ (by norm_num)) (Nat.mod_lt _ (by norm_num)) e12
  have d13 := digitChar_inj (Nat.mod_lt _ (by norm_num)) (Nat.mod_lt _ (by norm_num)) e13
  have d14 := digitChar_inj (Nat.mod_lt _ (by norm_num)) (Nat.mod_lt _ (by norm_num)) e14
  omega

/-! ## Claim theorems -/

/-- C1: at most one live capture subprocess at any time. In every state
reachable by the record_stream loop from its initial state, the number
of concurrently alive child processes is at most 1; moreover at the top
of the outer loop - the only point where start_recording is invoked -
no previously spawned child is still alive (it has exited or been
stopped), so a new start never overlaps a live predecessor. -/
theorem record_stream_at_most_one_live (s : RState)
    (h : Reaches initState s) :
    s.liveProcs.card ≤ 1 ∧ (s.pc = PC.outer → s.liveProcs = ∅) := by
  obtain ⟨h1, h2⟩ := loopInv_reachable s h
  constructor
  · apply Finset.card_le_one.mpr
    intro a ha b hb
    have hab := (h1 a ha).symm.trans (h1 b hb)
    exact Option.some.inj hab
  · intro hpc
    apply h2
    rw [hpc]
    intro hc
    exact PC.noConfusion hc

/-- Witness for C1: the conclusion instantiated at the initial state,
reachable by the empty step sequence. -/
theorem record_stream_at_most_one_live_witness :
    initState.liveProcs.card ≤ 1 ∧
      (initState.pc = PC.outer → initState.liveProcs = ∅) :=
  record_stream_at_most_one_live initState Relation.ReflTransGen.refl

/-- C2 counterexample: when the capture process has exited on its own
(poll() not None) while the channel is still live, the inner loop of
record_stream exits without ever invoking stop_recording, and the stale
handle is left stored - refuting the claim that stop is issued whenever
the process has exited on its own OR the live check reports not-live. -/
theorem record_inner_exit_without_stop_cx :
    (record_inner [(false, true)]).exitKind = InnerExit.processExited ∧
    (record_inner [(false, true)]).acts.count LoopAct.stopCall = 0 ∧
    (record_inner [(false, true)]).handleCleared = false := by
  refine ⟨rfl, rfl, rfl⟩

/-- C2 (amended): while recording, each iteration polls process health
and live status and sleeps exactly 30 seconds between iterations; when
is_stream_live flips to false with the process still running, stop is
issued exactly once, the handle is cleared, and control returns to the
outer (idle) loop; when the process has exited on its own, the loop
returns to the outer loop without issuing stop and without clearing the
stale handle. -/
theorem record_inner_stop_behaviour (tr : List (Bool × Bool)) :
    ((record_inner tr).exitKind = InnerExit.streamEnded →
      (record_inner tr).acts.count LoopAct.stopCall = 1 ∧
        (record_inner tr).handleCleared = true) ∧
    ((record_inner tr).exitKind = InnerExit.processExited →
      (record_inner tr).acts.count LoopAct.stopCall = 0 ∧
        (record_inner tr).handleCleared = false) ∧
    (∀ n, LoopAct.sleep n ∈ (record_inner tr).acts → n = 30) ∧
    (∀ (s t : RState), RecordStep s StepLabel.exitPollDead t →
      t.pc = PC.outer ∧ t.process = s.process) ∧
    (∀ (s t : RState), RecordStep s StepLabel.stopOnOffline t →
      t.pc = PC.outer ∧ t.process = none) := by
  refine ⟨record_inner_streamEnded_count tr,
    record_inner_processExited_count tr, record_inner_sleep_30 tr, ?_, ?_⟩
  · intro s t hst
    cases hst with
    | exitPollDead p h hp hl => exact ⟨rfl, rfl⟩
  · intro s t hst
    cases hst with
    | stopOnOffline p h hp => exact ⟨rfl, applyStop_process s⟩

/-- Witness for C2 (amended): a concrete recording run of two
iterations in which the channel goes offline on the second poll; stop
is issued exactly once and the handle is cleared. -/
theorem record_inner_stop_behaviour_witness :
    (record_inner [(true, true), (true, false)]).acts.count
        LoopAct.stopCall = 1 ∧
      (record_inner [(true, true), (true, false)]).handleCleared = true :=
  (record_inner_stop_behaviour [(true, true), (true, false)]).1 rfl

/-- C3: when the stored session is unset and the authentication
handshake raises, the try-body of is_stream_live propagates the error
internally, the catch-all logs it and the call returns false with the
session still unset - no exception reaches the caller; and on a
not-live answer the supervisor takes the 30-second waiting/backoff
transition and stays in the loop rather than halting. -/
theorem is_stream_live_handshake_failsafe (env : LiveEnv) (e : PyErr)
    (h : env.handshake = Except.error e) :
    is_stream_live_body none env = (none, Except.error e) ∧
    is_stream_live none env = (none, false) ∧
    (∀ (s t : RState) (n : Nat), RecordStep s (StepLabel.liveWait n) t →
      n = 30 ∧ t = s ∧ t.pc = PC.outer) := by
  refine ⟨?_, ?_, ?_⟩
  · simp [is_stream_live_body, initialize_twitch, h]
  · simp [is_stream_live, is_stream_live_body, initialize_twitch, h]
  · intro s t n hst
    cases hst with
    | liveWait hpc => exact ⟨rfl, rfl, hpc⟩

/-- Witness for C3 at a concrete failing handshake environment. -/
theorem is_stream_live_handshake_failsafe_witness :
    is_stream_live none
        { handshake := Except.error PyErr.twitchAuthError,
          query := fun _ => Except.ok true } = (none, false) :=
  (is_stream_live_handshake_failsafe
    { handshake := Except.error PyErr.twitchAuthError,
      query := fun _ => Except.ok true } PyErr.twitchAuthError rfl).2.1

/-- C4: stop_recording never raises and always leaves the handle field
None: with no stored process it performs nothing; on an already-exited
process the terminate/wait pair is a harmless no-op; on a running
process it terminates, waits up to 10 seconds (STOP_WAIT_TIMEOUT), and
escalates to kill exactly when the child fails to exit within the
timeout - in every case the stored handle is None afterwards, so a
subsequent start is permitted. -/
theorem stop_recording_idempotent_and_clears (p : Option ProcHealth)
    (exitAfter : Option Nat) :
    (∃ r, stop_recording p exitAfter = Except.ok r ∧ r.1 = none) ∧
    stop_recording none exitAfter = Except.ok (none, []) ∧
    stop_recording (some ProcHealth.exited) exitAfter =
      Except.ok (none, [SigAct.terminateSig, SigAct.waited]) ∧
    (∀ d, d ≤ STOP_WAIT_TIMEOUT →
      stop_recording (some ProcHealth.running) (some d) =
        Except.ok (none, [SigAct.terminateSig, SigAct.waited])) ∧
    (∀ d, STOP_WAIT_TIMEOUT < d →
      stop_recording (some ProcHealth.running) (some d) =
        Except.ok (none,
          [SigAct.terminateSig, SigAct.waited, SigAct.killSig])) ∧
    stop_recording (some ProcHealth.running) none =
      Except.ok (none,
        [SigAct.terminateSig, SigAct.waited, SigAct.killSig]) ∧
    STOP_WAIT_TIMEOUT = 10 := by
  refine ⟨?_, rfl, rfl, ?_, ?_, rfl, rfl⟩
  · cases p with
    | none => exact ⟨(none, []), rfl, rfl⟩
    | some h =>
      cases h with
      | exited => exact ⟨(none, [SigAct.terminateSig, SigAct.waited]), rfl, rfl⟩
      | running =>
        cases exitAfter with
        | none =>
          exact ⟨(none, [SigAct.terminateSig, SigAct.waited, SigAct.killSig]),
            rfl, rfl⟩
        | some d =>
          by_cases hd : d ≤ STOP_WAIT_TIMEOUT
          · refine ⟨(none, [SigAct.terminateSig, SigAct.waited]), ?_, rfl⟩
            simp [stop_recording, wait_with_timeout, hd]
          · refine ⟨(none,
              [SigAct.terminateSig, SigAct.waited, SigAct.killSig]), ?_, rfl⟩
            simp [stop_recording, wait_with_timeout, hd]
  · intro d hd
    simp [stop_recording, wait_with_timeout, hd]
  · intro d hd
    simp [stop_recording, wait_with_timeout, Nat.not_le.mpr hd]

/-- Witness for C4: a child that exits 3 seconds after terminate is
collected gracefully; one that would take 11 seconds is killed. -/
theorem stop_recording_idempotent_and_clears_witness :
    stop_recording (some ProcHealth.running) (some 3) =
      Except.ok (none, [SigAct.terminateSig, SigAct.waited]) ∧
    stop_recording (some ProcHealth.running) (some 11) =
      Except.ok (none,
        [SigAct.terminateSig, SigAct.waited, SigAct.killSig]) := by
  constructor
  · exact (stop_recording_idempotent_and_clears
      (some ProcHealth.running) (some 3)).2.2.2.1 3 (by decide)
  · exact (stop_recording_idempotent_and_clears
      (some ProcHealth.running) (some 11)).2.2.2.2.1 11 (by decide)

/-- C5: no error raised inside a loop tick escapes record_stream. The
only transition that ends the loop (reaches the post-break state) is
the KeyboardInterrupt handler, which stops any active recording before
exiting; an unexpected Exception is caught at the top of the tick,
stop_recording is called defensively (the handle is None afterwards and
any held child is no longer alive), and the loop continues at the top
of the outer loop after a 30-second backoff. -/
theorem record_stream_error_policy (s t : RState) (l : StepLabel)
    (hstep : RecordStep s l t) :
    (s.pc ≠ PC.done → t.pc = PC.done → l = StepLabel.interrupted) ∧
    (l = StepLabel.interrupted →
      t.pc = PC.done ∧ t.process = none ∧
        ∀ p, s.process = some p → p ∉ t.liveProcs) ∧
    (∀ n, l = StepLabel.errorCaught n →
      n = 30 ∧ t.pc = PC.outer ∧ t.process = none ∧
        ∀ p, s.process = some p → p ∉ t.liveProcs) := by
  cases hstep with
  | childDies p hp =>
    refine ⟨?_, ?_, ?_⟩
    · intro hnd hd
      exact absurd hd hnd
    · intro hl
      exact StepLabel.noConfusion hl
    · intro n hl
      exact StepLabel.noConfusion hl
  | netWait h =>
    refine ⟨?_, ?_, ?_⟩
    · intro hnd hd
      exact absurd hd hnd
    · intro hl
      exact StepLabel.noConfusion hl
    · intro n hl
      simp at hl
  | liveWait h =>
    refine ⟨?_, ?_, ?_⟩
    · intro hnd hd
      exact absurd hd hnd
    · intro hl
      exact StepLabel.noConfusion hl
    · intro n hl
      simp at hl
  | startRec h =>
    refine ⟨?_, ?_, ?_⟩
    · intro hnd hd
      exact absurd hd (fun hc => PC.noConfusion hc)
    · intro hl
      exact StepLabel.noConfusion hl
    · intro n hl
      exact StepLabel.noConfusion hl
  | pollSleep p h hp hl =>
    refine ⟨?_, ?_, ?_⟩
    · intro hnd hd
      rw [h] at hd
      exact absurd hd (fun hc => PC.noConfusion hc)
    · intro hlab
      exact StepLabel.noConfusion hlab
    · intro n hlab
      simp at hlab
  | exitPollDead p h hp hl =>
    refine ⟨?_, ?_, ?_⟩
    · intro hnd hd
      exact absurd hd (fun hc => PC.noConfusion hc)
    · intro hlab
      exact StepLabel.noConfusion hlab
    · intro n hlab
      exact StepLabel.noConfusion hlab
  | exitNoHandle h hp =>
    refine ⟨?_, ?_, ?_⟩
    · intro hnd hd
      exact absurd hd (fun hc => PC.noConfusion hc)
    · intro hlab
      exact StepLabel.noConfusion hlab
    · intro n hlab
      exact StepLabel.noConfusion hlab
  | stopOnOffline p h hp =>
    refine ⟨?_, ?_, ?_⟩
    · intro hnd hd
      exact absurd hd (fun hc => PC.noConfusion hc)
    · intro hlab
      exact StepLabel.noConfusion hlab
    · intro n hlab
      exact StepLabel.noConfusion hlab
  | errorCaught h =>
    refine ⟨?_, ?_, ?_⟩
    · intro hnd hd
      exact absurd hd (fun hc => PC.noConfusion hc)
    · intro hlab
      exact StepLabel.noConfusion hlab
    · intro n hlab
      have hn : n = 30 := (StepLabel.errorCaught.inj hlab).symm
      exact ⟨hn, rfl, applyStop_process s, fun p hp => applyStop_not_mem s p hp⟩
  | interrupted h =>
    refine ⟨?_, ?_, ?_⟩
    · intro hnd hd
      rfl
    · intro hlab
      exact ⟨rfl, applyStop_process s, fun p hp => applyStop_not_mem s p hp⟩
    · intro n hlab
      exact StepLabel.noConfusion hlab

/-- Witness for C5: the conclusion at a concrete errorCaught step taken
from the initial state. -/
theorem record_stream_error_policy_witness :
    ({ applyStop initState with pc := PC.outer } : RState).pc = PC.outer ∧
    ({ applyStop initState with pc := PC.outer } : RState).process = none := by
  have h := record_stream_error_policy initState
    { applyStop initState with pc := PC.outer } (StepLabel.errorCaught 30)
    (RecordStep.errorCaught initState (by intro hc; exact PC.noConfusion hc))
  have h2 := h.2.2 30 rfl
  exact ⟨h2.2.1, h2.2.2.1⟩

/-- C6 counterexample: an authentication/session error raised by the
get_streams query while a session is stored leaves the session in
place - is_stream_live returns false for the tick but does NOT
invalidate self.twitch, so the next attempt does not retry the
handshake. -/
theorem is_stream_live_query_error_keeps_session_cx :
    is_stream_live (some 5)
        { handshake := Except.ok 0,
          query := fun _ => Except.error PyErr.twitchAuthError } =
      (some 5, false) ∧
    handshake_attempted
        (is_stream_live (some 5)
          { handshake := Except.ok 0,
            query := fun _ => Except.error PyErr.twitchAuthError }).1 =
      false := by
  exact ⟨rfl, rfl⟩

/-- C6 (amended): when the handshake itself fails, the session remains
unset, so the next attempt retries the handshake, and the failing call
returns false for that tick; but an authentication/session error raised
by the query with a session already stored leaves the session stored
(it is NOT invalidated, so the next attempt queries with the same
session instead of redoing the handshake), and the call returns false
for that tick. -/
theorem is_stream_live_session_error_behaviour (env : LiveEnv)
    (sess : Nat) (e1 e2 : PyErr) :
    (env.handshake = Except.error e1 →
      is_stream_live none env = (none, false) ∧
        handshake_attempted (is_stream_live none env).1 = true) ∧
    (env.query sess = Except.error e2 →
      is_stream_live (some sess) env = (some sess, false) ∧
        handshake_attempted (is_stream_live (some sess) env).1 = false) := by
  constructor
  · intro h
    constructor
    · simp [is_stream_live, is_stream_live_body, initialize_twitch, h]
    · simp [is_stream_live, is_stream_live_body, initialize_twitch, h,
        handshake_attempted]
  · intro h
    constructor
    · simp [is_stream_live, is_stream_live_body, h]
    · simp [is_stream_live, is_stream_live_body, h, handshake_attempted]

/-- Witness for C6 (amended) at a concrete environment in which both
the handshake and the query fail. -/
theorem is_stream_live_session_error_behaviour_witness :
    is_stream_live none
        { handshake := Except.error PyErr.twitchAuthError,
          query := fun _ => Except.error PyErr.twitchQueryError } =
      (none, false) ∧
    is_stream_live (some 5)
        { handshake := Except.error PyErr.twitchAuthError,
          query := fun _ => Except.error PyErr.twitchQueryError } =
      (some 5, false) := by
  have h := is_stream_live_session_error_behaviour
    { handshake := Except.error PyErr.twitchAuthError,
      query := fun _ => Except.error PyErr.twitchQueryError } 5
    PyErr.twitchAuthError PyErr.twitchQueryError
  exact ⟨(h.1 rfl).1, (h.2 rfl).1⟩

/-- C7: is_internet_available probes a fixed ordered list of exactly 3
endpoints with a 5-second timeout per request (within the claimed
bounds of at least 3 endpoints and at most 5 seconds); it returns true
as soon as one requests.get succeeds, skips to the next endpoint on a
RequestException, returns true iff some endpoint succeeds (false only
when all fail), and never raises to its caller (its result type is a
plain Bool for every probe environment). -/
theorem is_internet_available_failsafe :
    3 ≤ endpoints.length ∧
    REQUESTS_GET_TIMEOUT ≤ 5 ∧
    (∀ probe, is_internet_available probe = true ↔
      ∃ e ∈ endpoints, probe e = Except.ok ()) ∧
    (∀ (probe : String → Except PyErr Unit) (e : String)
        (rest : List String), probe e = Except.ok () →
      probe_endpoints probe (e :: rest) = true) ∧
    (∀ (probe : String → Except PyErr Unit) (e : String) (err : PyErr)
        (rest : List String), probe e = Except.error err →
      probe_endpoints probe (e :: rest) = probe_endpoints probe rest) := by
  refine ⟨by decide, by decide, ?_, ?_, ?_⟩
  · intro probe
    exact probe_endpoints_true_iff probe endpoints
  · intro probe e rest h
    simp [probe_endpoints, h]
  · intro probe e err rest h
    simp [probe_endpoints, h]

/-- Witness for C7: a concrete probe environment in which the first
endpoint fails and the second succeeds. -/
theorem is_internet_available_failsafe_witness :
    probe_endpoints
        (fun u => if u = "https://1.1.1.1" then
          Except.error PyErr.requestException else Except.ok ())
        ("https://1.1.1.1" :: ["https://8.8.8.8"]) =
      probe_endpoints
        (fun u => if u = "https://1.1.1.1" then
          Except.error PyErr.requestException else Except.ok ())
        ["https://8.8.8.8"] ∧
    probe_endpoints
        (fun u => if u = "https://1.1.1.1" then
          Except.error PyErr.requestException else Except.ok ())
        ["https://8.8.8.8"] = true := by
  constructor
  · exact is_internet_available_failsafe.2.2.2.2
      (fun u => if u = "https://1.1.1.1" then
        Except.error PyErr.requestException else Except.ok ())
      "https://1.1.1.1" PyErr.requestException ["https://8.8.8.8"] rfl
  · exact is_internet_available_failsafe.2.2.2.1
      (fun u => if u = "https://1.1.1.1" then
        Except.error PyErr.requestException else Except.ok ())
      "https://8.8.8.8" [] rfl

/-- C8: the allocator's path is collision-free across distinct
(channel, timestamp-second) pairs: for valid wall-clock timestamps, two
calls of get_output_filename agree only when both the channel and the
second-resolution timestamp agree, so only the same channel within the
same second may collide. -/
theorem get_output_filename_collision_free (c1 c2 : List Char)
    (t1 t2 : DateTime) (hv1 : ValidDateTime t1) (hv2 : ValidDateTime t2)
    (hne : (c1, t1) ≠ (c2, t2)) :
    get_output_filename c1 t1 ≠ get_output_filename c2 t2 := by
  intro heq
  apply hne
  unfold get_output_filename at heq
  simp only [List.append_assoc] at heq
  have h1 := List.append_cancel_left heq
  have h2 := List.append_cancel_left h1
  have hlen : (['_'] ++ (strftime_timestamp t1 ++ ".mp4".data)).length =
      (['_'] ++ (strftime_timestamp t2 ++ ".mp4".data)).length := by
    simp [strftime_timestamp_length]
  obtain ⟨hc, hrest⟩ := List.append_inj' h2 hlen
  have h3 := List.append_cancel_left hrest
  have h4 := List.append_cancel_right h3
  have ht := strftime_timestamp_inj hv1 hv2 h4
  rw [hc, ht]

/-- Witness for C8: the same channel at two timestamps one second apart
yields distinct paths. -/
theorem get_output_filename_collision_free_witness :
    get_output_filename "foo".data (DateTime.mk 2024 1 1 12 0 0) ≠
      get_output_filename "foo".data (DateTime.mk 2024 1 1 12 0 1) :=
  get_output_filename_collision_free "foo".data "foo".data
    (DateTime.mk 2024 1 1 12 0 0) (DateTime.mk 2024 1 1 12 0 1)
    (by decide) (by decide) (by decide)

/-- C9 counterexample: get_output_filename performs no directory
creation at all - called on a filesystem in which the output directory
does not exist, it leaves the filesystem unchanged and the directory
still absent, refuting the claim that every allocator call guarantees
the directory exists at the time of the call. -/
theorem get_output_filename_no_mkdir_cx :
    (get_output_filename_fs [] "foo".data (DateTime.mk 2024 1 1 12 0 0)).1
        = [] ∧
      output_dir ∉
        (get_output_filename_fs [] "foo".data
          (DateTime.mk 2024 1 1 12 0 0)).1 := by
  refine ⟨rfl, ?_⟩
  simp [get_output_filename_fs]

/-- C9 (amended): the output directory is created idempotently once, at
TwitchRecorder construction (mkdir with exist_ok), not by the filename
allocator; get_output_filename itself touches no directory, so the
directory is guaranteed to exist at allocation time only because
construction created it (and provided nothing removed it since). -/
theorem output_dir_created_at_init (fs : List (List Char))
    (c : List Char) (t : DateTime) :
    output_dir ∈ recorder_init_fs fs ∧
    recorder_init_fs (recorder_init_fs fs) = recorder_init_fs fs ∧
    (get_output_filename_fs fs c t).1 = fs ∧
    output_dir ∈ (get_output_filename_fs (recorder_init_fs fs) c t).1 := by
  have hstep : ∀ l : List (List Char), output_dir ∈ l →
      mkdir_exist_ok l output_dir = l := by
    intro l hl
    unfold mkdir_exist_ok
    rw [if_pos hl]
  have hmem : output_dir ∈ recorder_init_fs fs := by
    unfold recorder_init_fs mkdir_exist_ok
    split
    · assumption
    · exact List.mem_cons_self _ _
  refine ⟨hmem, ?_, rfl, hmem⟩
  unfold recorder_init_fs
  exact hstep _ hmem

/-- C10: start_recording overwrites the stored handle with the fresh
child unconditionally - its result does not depend on the previously
stored handle, it stops nothing (every previously alive child is still
alive afterwards), and when it is called while a prior live child is
still held, that child stays alive but is no longer referenced by the
handle (it is orphaned). -/
theorem start_recording_unconditional_overwrite (s : RState) (q : Nat) :
    (start_recording s).process = some s.nextId ∧
    (∀ h : Option Nat, start_recording { s with process := h } =
      start_recording s) ∧
    (∀ r ∈ s.liveProcs, r ∈ (start_recording s).liveProcs) ∧
    (s.process = some q → q ∈ s.liveProcs → q ≠ s.nextId →
      q ∈ (start_recording s).liveProcs ∧
        (start_recording s).process ≠ some q) := by
  refine ⟨rfl, ?_, ?_, ?_⟩
  · intro h
    rfl
  · intro r hr
    exact Finset.mem_insert_of_mem hr
  · intro hp hq hne
    refine ⟨Finset.mem_insert_of_mem hq, ?_⟩
    intro hc
    simp only [start_recording] at hc
    exact hne (Option.some.inj hc).symm

/-- Witness for C10: starting while a live child with id 0 is still
held leaves child 0 alive but unreferenced. -/
theorem start_recording_unconditional_overwrite_witness :
    0 ∈ (start_recording
        { pc := PC.inner, process := some 0, liveProcs := {0},
          nextId := 1 }).liveProcs ∧
      (start_recording
        { pc := PC.inner, process := some 0, liveProcs := {0},
          nextId := 1 }).process ≠ some 0 :=
  (start_recording_unconditional_overwrite
    { pc := PC.inner, process := some 0, liveProcs := {0}, nextId := 1 }
    0).2.2.2 rfl (Finset.mem_singleton_self 0) (by decide)
